import Mathlib

/-!
Verification development for the email-validator API.

The TypeScript sources under scrutiny are shallowly embedded as Lean
functions.  Email strings are modelled as `List Char` (the JS string
operations used by the code — `split`, `length`, `includes`,
`startsWith`, `endsWith`, `toLowerCase` — act on the character sequence,
and all characters that matter to the checks are ASCII).  Asynchronous
effects (file system, DNS, SMTP sockets) are modelled by passing the
outcome of the effect as an explicit argument, and module-level mutable
state (the memoised disposable-domain set, the response cache) is
threaded explicitly.
-/

set_option maxRecDepth 8000

namespace EmailValidator

/-- JS `string.split(sep)` for a one-character separator, on the
character list. `[]` splits to `[[]]`, like `"".split("@")` gives `[""]`. -/
def splitOnChar (sep : Char) : List Char → List (List Char)
  | [] => [[]]
  | c :: cs =>
    let r := splitOnChar sep cs
    if c = sep then [] :: r
    else
      match r with
      | [] => [[c]]
      | h :: t => (c :: h) :: t

/-- JS `toLowerCase` restricted to ASCII (the only characters that can
reach the comparisons in this code base, since the syntax regex admits
only ASCII). -/
def jsToLower (c : Char) : Char :=
  if 'A' ≤ c ∧ c ≤ 'Z' then Char.ofNat (c.toNat + 32) else c

/-- `{passed, message}` result shape shared by the validators.  The
optional `matchedRole` / `matchedDomain` / `confidence` fields of the
TypeScript interfaces are included so route responses keep their
information content. -/
structure CheckResult where
  passed : Bool
  message : String
  matchedRole : Option (List Char) := none
  matchedDomain : Option (List Char) := none
  confidence : Option Int := none
  deriving Repr, DecidableEq

/-! ## Syntax checker — `src/src/utils/validateSyntax.ts` -/

def isDigitChar (c : Char) : Bool := decide ('0' ≤ c ∧ c ≤ '9')

def isAlphaChar (c : Char) : Bool :=
  decide (('a' ≤ c ∧ c ≤ 'z') ∨ ('A' ≤ c ∧ c ≤ 'Z'))

def isAlnumChar (c : Char) : Bool := isAlphaChar c || isDigitChar c

/-- The special characters of the local-part character class
`[a-zA-Z0-9.!#$%&'*+/=?^_`{|}~-]` of the source's `emailRegex`
(apostrophe, backtick and braces written via their code points). -/
def localSpecialChars : List Char :=
  ['.', '!', '#', '$', '%', '&', '*', '+', '/', '=', '?', '^', '_', '~', '-', '|'] ++
    [Char.ofNat 39, Char.ofNat 96, Char.ofNat 123, Char.ofNat 125]

def isLocalChar (c : Char) : Bool := isAlnumChar c || localSpecialChars.contains c

def isLabelChar (c : Char) : Bool := isAlnumChar c || c = '-'

/-- One domain label of `emailRegex`:
`[a-zA-Z0-9](?:[a-zA-Z0-9-]{0,61}[a-zA-Z0-9])?` — 1 to 63 characters,
alphanumeric-or-hyphen, first and last alphanumeric. -/
def labelOk (l : List Char) : Bool :=
  decide (1 ≤ l.length) && decide (l.length ≤ 63) && l.all isLabelChar &&
    (match l.head? with
     | some c => isAlnumChar c
     | none => false) &&
    (match l.getLast? with
     | some c => isAlnumChar c
     | none => false)

/-- `emailRegex.test(email)`.  The regex is anchored and its local-part
class contains no `@`, so a match forces the unique `@`-split into a
non-empty local part over the local class and a dot-separated sequence
of valid labels. -/
def emailRegexTest (email : List Char) : Bool :=
  match splitOnChar '@' email with
  | [l, d] => !l.isEmpty && l.all isLocalChar && (splitOnChar '.' d).all labelOk
  | _ => false

/-- JS `email.includes("..")`. -/
def hasConsecutiveDots : List Char → Bool
  | '.' :: '.' :: _ => true
  | _ :: rest => hasConsecutiveDots rest
  | [] => false

/-- `validateSyntax` from `src/src/utils/validateSyntax.ts`, branch for
branch.  (The `typeof email !== "string"` half of the first guard cannot
arise in the typed model; `!email` — the empty string — is kept.) -/
def validateSyntax (email : List Char) : CheckResult :=
  if email.isEmpty then
    { passed := false, message := "Email must be a non-empty string" }
  else if email.length > 254 then
    { passed := false, message := "Email address is too long (max 254 characters)" }
  else if !(email.contains '@') then
    { passed := false, message := "Email must contain @ symbol" }
  else
    let parts := splitOnChar '@' email
    if parts.length ≠ 2 then
      { passed := false, message := "Email must contain exactly one @ symbol" }
    else
      let localPart := parts.getD 0 []
      let domain := parts.getD 1 []
      if localPart.length = 0 ∨ localPart.length > 64 then
        { passed := false, message := "Local part must be between 1 and 64 characters" }
      else if domain.length = 0 ∨ domain.length > 253 then
        { passed := false, message := "Domain must be between 1 and 253 characters" }
      else if !(emailRegexTest email) then
        { passed := false, message := "Invalid email format" }
      else if hasConsecutiveDots email then
        { passed := false, message := "Email cannot contain consecutive dots" }
      else if localPart.head? = some '.' ∨ localPart.getLast? = some '.' then
        { passed := false, message := "Local part cannot start or end with a dot" }
      else
        { passed := true, message := "Valid email syntax" }

/-! ## Role-based matcher — `src/src/utils/isRoleEmail.ts` -/

/-- The fixed list `roleBasedPrefixes` of the source. -/
def roleBasedPrefixes : List (List Char) :=
  ["admin", "administrator", "info", "support", "help", "sales", "marketing",
   "contact", "service", "noreply", "no-reply", "donotreply", "do-not-reply",
   "postmaster", "webmaster", "hostmaster", "abuse", "security", "privacy",
   "legal", "billing", "accounts", "accounting", "finance", "hr",
   "humanresources", "jobs", "careers", "recruitment", "press", "media",
   "news", "newsletter", "notifications", "alerts", "system", "root",
   "daemon", "ftp", "mail", "email", "www", "web", "api", "dev", "developer",
   "test", "testing", "demo", "example", "sample"].map String.toList

def roleMatches (localPart : List Char) (role : List Char) : Bool :=
  localPart == role || (role ++ ['.']).isPrefixOf localPart ||
    (role ++ ['+']).isPrefixOf localPart

/-- `isRoleEmail` from `src/src/utils/isRoleEmail.ts`. -/
def isRoleEmail (email : List Char) : CheckResult :=
  let localPart := ((splitOnChar '@' email).getD 0 []).map jsToLower
  if localPart.isEmpty then
    { passed := false, message := "Invalid email format - no local part found" }
  else
    match roleBasedPrefixes.find? (roleMatches localPart) with
    | some role =>
      { passed := false, message := "Email appears to be role-based", matchedRole := some role }
    | none => { passed := true, message := "Not a role-based email" }

/-! ## Disposable-domain matcher — `src/src/utils/isDisposableDomain.ts`

The file read and `JSON.parse` are modelled by a `LoadOutcome` argument;
the module-level `disposableDomains` variable is threaded explicitly as
an `Option (List (List Char))` (`none` before the first load).  Every
exception path of the source ends in the `catch` that yields the empty
set, so the model is total — the function never throws. -/

/-- Outcome of `fs.readFile` + `JSON.parse` on the domains file:
unreadable/unparseable, parseable but not an array, or an array of
domain strings. -/
inductive LoadOutcome where
  | readError : LoadOutcome
  | notArray : LoadOutcome
  | array : List (List Char) → LoadOutcome
  deriving Repr, DecidableEq

/-- The domain set a given load outcome produces (lower-cased on load;
empty on any failure). -/
def domainsOfOutcome : LoadOutcome → List (List Char)
  | .readError => []
  | .notArray => []
  | .array ds => ds.map (List.map jsToLower)

/-- `loadDisposableDomains`: returns the memoised set when present,
otherwise materialises the set from the load outcome and memoises it. -/
def loadDisposableDomains (state : Option (List (List Char))) (o : LoadOutcome) :
    List (List Char) × Option (List (List Char)) :=
  match state with
  | some s => (s, some s)
  | none =>
    let s := domainsOfOutcome o
    (s, some s)

/-- `isDisposableDomain`, with the module state threaded through. -/
def isDisposableDomain (email : List Char) (state : Option (List (List Char)))
    (o : LoadOutcome) : CheckResult × Option (List (List Char)) :=
  let domain := ((splitOnChar '@' email)[1]?).map (List.map jsToLower)
  match domain with
  | none => ({ passed := false, message := "Invalid email format - no domain found" }, state)
  | some [] => ({ passed := false, message := "Invalid email format - no domain found" }, state)
  | some d =>
    let (s, state') := loadDisposableDomains state o
    if s.contains d then
      ({ passed := false, message := "Email domain is disposable/temporary",
         matchedDomain := some d }, state')
    else
      ({ passed := true, message := "Domain is not disposable" }, state')

/-! ## SMTP prober — `src/src/utils/validateInboxExistence.ts`

`validateInboxRealSMTP` drives the SMTP dialogue from inside the
socket's `data` event handler: every event appends the chunk to the
accumulated `response` string, re-splits the **whole** string on CRLF
and re-walks **all** lines from the beginning with the current `step`
counter — there is no record of lines already consumed.  The machine
below embeds that handler: state is the accumulated text, the step,
and the resolution (once a branch resolves, `cleanup()` removes the
listeners, so later events no longer change the state).  The optional
`smtpResponse` field carries no decision content and is omitted. -/

structure InboxValidationResult where
  passed : Bool
  message : String
  confidence : Int
  method : String
  deriving Repr, DecidableEq

/-- `Number.parseInt(line.substring(0, 3))`, as an `Option`: `none`
stands for JS `NaN`, on which every `===` / `>=` guard fails.  (SMTP
reply lines are digit-led; the sign/whitespace handling of `parseInt`
is not exercised by them and is elided.) -/
def parseSmtpCode (line : List Char) : Option Int :=
  let digits := (line.take 3).takeWhile isDigitChar
  if digits.isEmpty then none
  else some (digits.foldl (fun acc c => acc * 10 + ((c.toNat : Int) - 48)) 0)

/-- The `step === 3` classification branch of the data handler (a `NaN`
code falls through to the final `else`, printed as `NaN`). -/
def rcptStageClassify (code : Option Int) : InboxValidationResult :=
  if code = some 250 then
    { passed := true, message := "Mailbox exists and can receive emails",
      confidence := 95, method := "smtp" }
  else if code = some 550 then
    { passed := false, message := "Mailbox does not exist",
      confidence := 90, method := "smtp" }
  else if code = some 551 ∨ code = some 553 then
    { passed := false, message := "Mailbox rejected or does not exist",
      confidence := 85, method := "smtp" }
  else if code = some 450 ∨ code = some 451 ∨ code = some 452 then
    { passed := false, message := "Temporary failure - mailbox may exist but server is busy",
      confidence := 40, method := "smtp" }
  else if code = some 421 then
    { passed := false, message := "Service not available - server is blocking validation",
      confidence := 20, method := "smtp" }
  else
    { passed := false,
      message := "Mailbox validation inconclusive (SMTP code: " ++
        (match code with
         | some n => toString n
         | none => "NaN") ++ ")",
      confidence := 30, method := "smtp" }

/-- The `code >= 400` early-error branch taken at steps 0–2. -/
def smtpProtocolErrorResult (line : List Char) : InboxValidationResult :=
  { passed := false, message := "SMTP error during validation: " ++ String.mk line,
    confidence := 60, method := "smtp" }

def codeGe400 : Option Int → Bool
  | some n => decide (400 ≤ n)
  | none => false

/-- JS `response.split("\r\n")`. -/
def splitOnCRLF : List Char → List (List Char)
  | '\r' :: '\n' :: rest => [] :: splitOnCRLF rest
  | c :: rest =>
    match splitOnCRLF rest with
    | [] => [[c]]
    | h :: t => (c :: h) :: t
  | [] => [[]]

/-- The `for (const line of lines)` loop of the data handler: empty
lines are skipped; the guards mirror `step === k && code === v` (the
step-advancing branches also write HELO / MAIL FROM / RCPT TO, which
the server answers in later events); a line reaching the `step === 3`
branch — whatever its code — or an error line resolves the promise and
returns from the handler, leaving the remaining lines unprocessed. -/
def walkLines (step : Nat) : List (List Char) → Nat × Option InboxValidationResult
  | [] => (step, none)
  | line :: rest =>
    if line.isEmpty then walkLines step rest
    else
      let code := parseSmtpCode line
      if step = 0 ∧ code = some 220 then walkLines 1 rest
      else if step = 1 ∧ code = some 250 then walkLines 2 rest
      else if step = 2 ∧ code = some 250 then walkLines 3 rest
      else if step = 3 then (step, some (rcptStageClassify code))
      else if codeGe400 code then (step, some (smtpProtocolErrorResult line))
      else walkLines step rest

structure SmtpProbeState where
  response : List Char
  step : Nat
  resolved : Option InboxValidationResult
  deriving Repr, DecidableEq

/-- One `data` event: append the chunk to the accumulated response,
re-split the whole string, re-walk every line with the current step.
After a resolution, `cleanup()` has removed the listeners, so the state
no longer changes. -/
def onSmtpData (st : SmtpProbeState) (chunk : List Char) : SmtpProbeState :=
  match st.resolved with
  | some _ => st
  | none =>
    let response := st.response ++ chunk
    let (stepNext, res) := walkLines st.step (splitOnCRLF response)
    { response := response, step := stepNext, resolved := res }

/-- The dialogue from the fresh connection state over a sequence of
data events. -/
def runSmtpSession (chunks : List (List Char)) : SmtpProbeState :=
  chunks.foldl onSmtpData { response := [], step := 0, resolved := none }

/-- Resolution of the 10s timeout handler. -/
def smtpTimeoutResult : InboxValidationResult :=
  { passed := false,
    message := "SMTP connection timeout - server may be blocking validation attempts",
    confidence := 30, method := "smtp" }

/-- Resolution of the socket `error` handler. -/
def smtpConnectionErrorResult (errMessage : String) : InboxValidationResult :=
  { passed := false, message := "SMTP connection failed: " ++ errMessage,
    confidence := 20, method := "smtp" }

/-- Resolution of the socket `close` handler when the dialogue ended
before the RCPT stage. -/
def smtpConnectionClosedResult : InboxValidationResult :=
  { passed := false, message := "SMTP connection closed before mailbox validation",
    confidence := 25, method := "smtp" }

/-! ## Heuristic confidence scorer — `src/src/utils/validateSmtpSmart.ts`

`calculateConfidenceScore` and the `passed = confidence >= 60` decision
of `performSmartValidation` are pure arithmetic over the five analysis
records; scores are embedded in `ℚ` (JS numbers here are small exact
values) with `Math.round` as `⌊x + 1/2⌋`. -/

structure AnalysisResult where
  score : ℚ
  maxScore : ℚ
  deriving Repr, DecidableEq

/-- `(score+50)/(maxScore+50)*100` clamped to `[0,100]`. -/
def normalizedScore (a : AnalysisResult) : ℚ :=
  max 0 (min 100 ((a.score + 50) / (a.maxScore + 50) * 100))

/-- JS `Math.round` (round half toward positive infinity). -/
def jsRound (x : ℚ) : Int := ⌊x + 1 / 2⌋

/-- `calculateConfidenceScore`: weights domain 0.25, local part 0.30,
MX 0.30, pattern 0.10, reputation 0.05, summed in the source's
iteration order, divided by the total weight, clamped and rounded. -/
def calculateConfidenceScore (domainA localPartA mxA patternA reputationA : AnalysisResult) :
    Int :=
  let weightedScore :=
    normalizedScore domainA * (25 / 100) + normalizedScore localPartA * (30 / 100) +
      normalizedScore mxA * (30 / 100) + normalizedScore patternA * (10 / 100) +
      normalizedScore reputationA * (5 / 100)
  let totalWeight : ℚ := 25 / 100 + 30 / 100 + 30 / 100 + 10 / 100 + 5 / 100
  let confidence := if 0 < totalWeight then weightedScore / totalWeight else 0
  jsRound (max 0 (min 100 confidence))

/-- The `maxScore` constants fixed by the five analyzers of the source:
`analyzeDomain` 50, `analyzeLocalPart` 40, `analyzeMxRecords` 45,
`analyzeEmailPatterns` 25, `checkDomainReputation` 30. -/
def analyzerMaxScores : ℚ × ℚ × ℚ × ℚ × ℚ := (50, 40, 45, 25, 30)

/-- `performSmartValidation` line 148: `passed = confidence >= 60`. -/
def smartValidationPassed (confidence : Int) : Bool := decide (60 ≤ confidence)

/-! ## Validation orchestrator — `src/src/routes/email.ts`

The `POST /validate-email` handler.  The network-bound checks
(`isDisposableDomain` as seen by the route, `validateMx`, `validateSmtp`)
are supplied as oracle results in `CheckOracles`; `validateSyntax` and
`isRoleEmail` are the pure functions above.  The module-level
`responseCache` is threaded as an association list whose `get` finds the
first (most recent) binding, matching `Map.get`/`Map.set` observations. -/

/-- The optional `tests` object of the request body. -/
structure TestsSelection where
  smtp : Option Bool := none
  mx : Option Bool := none
  disposableDomain : Option Bool := none
  roleBased : Option Bool := none
  deriving Repr, DecidableEq

/-- The four `enable*` flags computed at the top of the handler
(`tests.x` when it is a boolean, else the default — `checkInboxLegacy`
for SMTP, `true` for the others). -/
structure EnabledChecks where
  smtp : Bool
  mx : Bool
  disposableDomain : Bool
  roleBased : Bool
  deriving Repr, DecidableEq

def enabledChecks (checkInboxLegacy : Bool) (tests : TestsSelection) : EnabledChecks :=
  { smtp := tests.smtp.getD checkInboxLegacy
    mx := tests.mx.getD true
    disposableDomain := tests.disposableDomain.getD true
    roleBased := tests.roleBased.getD true }

/-- The `results` object of an `EmailValidationResponse`. -/
structure CheckResults where
  syntaxResult : CheckResult
  mx : CheckResult
  smtp : CheckResult
  disposableDomain : CheckResult
  roleBased : CheckResult
  deriving Repr, DecidableEq

structure EmailValidationResponse where
  email : List Char
  valid : Bool
  results : CheckResults
  deriving Repr, DecidableEq

/-- Oracle results for the effectful checks of stages 3–5. -/
structure CheckOracles where
  disposableResult : CheckResult
  mxResult : CheckResult
  smtpResult : CheckResult
  deriving Repr, DecidableEq

/-- One placeholder entry of the initial `response.results`:
`{passed: !enabled, message: enabled ? "" : skippedMessage}`. -/
def placeholderResult (enabled : Bool) (skippedMessage : String) : CheckResult :=
  { passed := !enabled, message := if enabled then "" else skippedMessage }

def initialResults (e : EnabledChecks) : CheckResults :=
  { syntaxResult := { passed := false, message := "" }
    mx := placeholderResult e.mx "Skipped MX check (by request)"
    smtp := placeholderResult e.smtp "Skipped SMTP check (by request)"
    disposableDomain :=
      placeholderResult e.disposableDomain "Skipped disposable-domain check (by request)"
    roleBased := placeholderResult e.roleBased "Skipped role-based check (by request)" }

def gmailDomain : List Char := "gmail.com".toList

/-- `email.split("@")[1]?.toLowerCase()`. -/
def domainOf (email : List Char) : Option (List Char) :=
  ((splitOnChar '@' email)[1]?).map (List.map jsToLower)

def gmailRoleResult : CheckResult :=
  { passed := true, message := "Gmail addresses are not checked for role-based patterns" }

def gmailDisposableResult : CheckResult :=
  { passed := true, message := "Gmail is not a disposable domain" }

def gmailMxResult : CheckResult :=
  { passed := true, message := "Gmail has valid MX records" }

/-- The body of the handler after the cache lookup: stages 1–5 and the
final `valid` conjunction, with each early `return` as a branch. -/
def runPipeline (email : List Char) (e : EnabledChecks) (o : CheckOracles) :
    EmailValidationResponse :=
  let r0 := initialResults e
  let syntaxChecked := validateSyntax email
  let r1 := { r0 with syntaxResult := syntaxChecked }
  if ¬ syntaxChecked.passed then
    { email := email, valid := false, results := r1 }
  else
    let isGmail := domainOf email = some gmailDomain
    let roleChecked :=
      if e.roleBased then
        if isGmail then gmailRoleResult else isRoleEmail email
      else r1.roleBased
    let r2 := { r1 with roleBased := roleChecked }
    if e.roleBased ∧ ¬ isGmail ∧ ¬ (isRoleEmail email).passed then
      { email := email, valid := false, results := r2 }
    else
      let r3 :=
        if isGmail then
          { r2 with
            disposableDomain :=
              if e.disposableDomain then gmailDisposableResult else r2.disposableDomain
            mx := if e.mx then gmailMxResult else r2.mx }
        else
          { r2 with
            disposableDomain :=
              if e.disposableDomain then o.disposableResult else r2.disposableDomain
            mx := if e.mx then o.mxResult else r2.mx }
      if (e.disposableDomain ∧ ¬ r3.disposableDomain.passed) ∨ (e.mx ∧ ¬ r3.mx.passed) then
        { email := email, valid := false, results := r3 }
      else
        let r4 := if e.smtp then { r3 with smtp := o.smtpResult } else r3
        let validFlag :=
          r4.syntaxResult.passed && (!e.roleBased || r4.roleBased.passed) &&
            (!e.disposableDomain || r4.disposableDomain.passed) &&
            (!e.mx || r4.mx.passed) && (!e.smtp || r4.smtp.passed)
        { email := email, valid := validFlag, results := r4 }

/-- `CACHE_TTL = 5 * 60 * 1000`. -/
def cacheTTL : Int := 5 * 60 * 1000

/-- The flag suffix of the cache key template literal. -/
def cacheKeySuffix (e : EnabledChecks) : List Char :=
  "|smtp:".toList ++ (if e.smtp then ['1'] else ['0']) ++
    "|mx:".toList ++ (if e.mx then ['1'] else ['0']) ++
    "|disp:".toList ++ (if e.disposableDomain then ['1'] else ['0']) ++
    "|role:".toList ++ (if e.roleBased then ['1'] else ['0'])

/-- The cache key
`` `${email}|smtp:..|mx:..|disp:..|role:..` ``. -/
def cacheKey (email : List Char) (e : EnabledChecks) : List Char :=
  email ++ cacheKeySuffix e

abbrev ResponseCache := List (List Char × Int × EmailValidationResponse)

def cacheGet (c : ResponseCache) (k : List Char) : Option (Int × EmailValidationResponse) :=
  (c.find? (fun entry => entry.1 == k)).map (fun entry => entry.2)

def cacheSet (c : ResponseCache) (k : List Char) (timestamp : Int)
    (v : EmailValidationResponse) : ResponseCache :=
  (k, timestamp, v) :: c

/-- The whole handler for a well-formed request: cache lookup, pipeline,
cache population.  (Every return path of the source performs
`responseCache.set` with exactly the response it sends, so the set is
factored after the pipeline.) -/
def processRequest (cache : ResponseCache) (now : Int) (email : List Char)
    (checkInboxLegacy : Bool) (tests : TestsSelection) (o : CheckOracles) :
    EmailValidationResponse × ResponseCache :=
  let e := enabledChecks checkInboxLegacy tests
  let key := cacheKey email e
  match cacheGet cache key with
  | some (t, v) =>
    if now - t < cacheTTL then (v, cache)
    else
      let r := runPipeline email e o
      (r, cacheSet cache key now r)
  | none =>
    let r := runPipeline email e o
    (r, cacheSet cache key now r)

/-! ## Helper lemmas -/

theorem normalizedScore_mono (m : ℚ) (hm : 0 ≤ m) {s : ℚ} (hs : 0 ≤ s) :
    normalizedScore ⟨0, m⟩ ≤ normalizedScore ⟨s, m⟩ := by
  unfold normalizedScore
  have h50 : (0 : ℚ) < m + 50 := by linarith
  gcongr

theorem normalizedScore_le_100 (a : AnalysisResult) : normalizedScore a ≤ 100 := by
  unfold normalizedScore
  have h := min_le_left 100 ((a.score + 50) / (a.maxScore + 50) * 100)
  simp only [max_le_iff]
  exact ⟨by norm_num, h⟩

/-- The nine branch messages of `validateSyntax` (the eight specific
failure reasons plus the generic regex-failure message). -/
def syntaxFailureMessages : List String :=
  ["Email must be a non-empty string", "Email address is too long (max 254 characters)",
   "Email must contain @ symbol", "Email must contain exactly one @ symbol",
   "Local part must be between 1 and 64 characters",
   "Domain must be between 1 and 253 characters", "Invalid email format",
   "Email cannot contain consecutive dots", "Local part cannot start or end with a dot"]

theorem validateSyntax_failure_spec (email : List Char) :
    (validateSyntax email).passed = false →
      (validateSyntax email).message ∈ syntaxFailureMessages ∧
        (validateSyntax email).message ≠ "" := by
  simp only [validateSyntax]
  repeat' split
  all_goals decide

theorem validateSyntax_too_long (email : List Char) (h : 254 < email.length) :
    validateSyntax email =
      { passed := false, message := "Email address is too long (max 254 characters)" } := by
  have hne : email.isEmpty = false := by
    cases email with
    | nil => simp at h
    | cons a l => rfl
  unfold validateSyntax
  rw [hne]
  simp only [Bool.false_eq_true, if_false]
  rw [if_pos h]

theorem isRoleEmail_failure_message_nonempty (email : List Char) :
    (isRoleEmail email).passed = false → (isRoleEmail email).message ≠ "" := by
  simp only [isRoleEmail]
  repeat' split
  all_goals simp

theorem isDisposableDomain_failure_message_nonempty (email : List Char)
    (state : Option (List (List Char))) (o : LoadOutcome) :
    (isDisposableDomain email state o).1.passed = false →
      (isDisposableDomain email state o).1.message ≠ "" := by
  simp only [isDisposableDomain]
  repeat' split
  all_goals simp

theorem runPipeline_syntax_fail (email : List Char) (e : EnabledChecks) (o : CheckOracles)
    (h : (validateSyntax email).passed = false) :
    runPipeline email e o =
      { email := email, valid := false,
        results := { initialResults e with syntaxResult := validateSyntax email } } := by
  unfold runPipeline
  simp only [h, Bool.false_eq_true, not_false_eq_true, if_true]

theorem runPipeline_valid_eq (email : List Char) (e : EnabledChecks) (o : CheckOracles) :
    (runPipeline email e o).valid =
      ((runPipeline email e o).results.syntaxResult.passed &&
        (!e.roleBased || (runPipeline email e o).results.roleBased.passed) &&
        (!e.disposableDomain || (runPipeline email e o).results.disposableDomain.passed) &&
        (!e.mx || (runPipeline email e o).results.mx.passed) &&
        (!e.smtp || (runPipeline email e o).results.smtp.passed)) := by
  simp only [runPipeline]
  repeat' split
  all_goals try simp_all [initialResults, placeholderResult, gmailRoleResult,
    gmailDisposableResult, gmailMxResult]
  all_goals intros
  all_goals simp_all

theorem runPipeline_skipped_reports (email : List Char) (e : EnabledChecks) (o : CheckOracles) :
    (e.roleBased = false → (runPipeline email e o).results.roleBased =
      { passed := true, message := "Skipped role-based check (by request)" }) ∧
    (e.disposableDomain = false → (runPipeline email e o).results.disposableDomain =
      { passed := true, message := "Skipped disposable-domain check (by request)" }) ∧
    (e.mx = false → (runPipeline email e o).results.mx =
      { passed := true, message := "Skipped MX check (by request)" }) ∧
    (e.smtp = false → (runPipeline email e o).results.smtp =
      { passed := true, message := "Skipped SMTP check (by request)" }) := by
  simp only [runPipeline]
  repeat' split
  all_goals simp_all [initialResults, placeholderResult]

theorem cacheGet_set (c : ResponseCache) (k : List Char) (t : Int)
    (v : EmailValidationResponse) : cacheGet (cacheSet c k t v) k = some (t, v) := by
  simp [cacheGet, cacheSet]

/-! ## Claims -/

/-- **C1.**  For every request (and so in particular for every request
that reaches the final stage), the report's `valid` field is the
conjunction of the syntax check's `passed` flag with the `passed` flag
of every check among roleBased, disposableDomain, mx and smtp that is
enabled in the request's `tests` selection; checks disabled by the
caller are reported as passed with a skipped message and contribute
nothing to the conjunction. -/
theorem c1_valid_is_conjunction_of_enabled_checks (email : List Char) (e : EnabledChecks)
    (o : CheckOracles) :
    ((runPipeline email e o).valid =
      ((runPipeline email e o).results.syntaxResult.passed &&
        (!e.roleBased || (runPipeline email e o).results.roleBased.passed) &&
        (!e.disposableDomain || (runPipeline email e o).results.disposableDomain.passed) &&
        (!e.mx || (runPipeline email e o).results.mx.passed) &&
        (!e.smtp || (runPipeline email e o).results.smtp.passed))) ∧
    (e.roleBased = false → (runPipeline email e o).results.roleBased =
      { passed := true, message := "Skipped role-based check (by request)" }) ∧
    (e.disposableDomain = false → (runPipeline email e o).results.disposableDomain =
      { passed := true, message := "Skipped disposable-domain check (by request)" }) ∧
    (e.mx = false → (runPipeline email e o).results.mx =
      { passed := true, message := "Skipped MX check (by request)" }) ∧
    (e.smtp = false → (runPipeline email e o).results.smtp =
      { passed := true, message := "Skipped SMTP check (by request)" }) :=
  ⟨runPipeline_valid_eq email e o, runPipeline_skipped_reports email e o⟩

/-- **C1 witness**: with mx and roleBased disabled, the report carries
the two skipped entries. -/
theorem c1_witness :
    (runPipeline "jane@x.co".toList ⟨true, false, true, false⟩
      ⟨{ passed := true, message := "d" }, { passed := true, message := "m" },
        { passed := true, message := "s" }⟩).results.mx =
      { passed := true, message := "Skipped MX check (by request)" } ∧
    (runPipeline "jane@x.co".toList ⟨true, false, true, false⟩
      ⟨{ passed := true, message := "d" }, { passed := true, message := "m" },
        { passed := true, message := "s" }⟩).results.roleBased =
      { passed := true, message := "Skipped role-based check (by request)" } :=
  ⟨(c1_valid_is_conjunction_of_enabled_checks "jane@x.co".toList ⟨true, false, true, false⟩
      ⟨{ passed := true, message := "d" }, { passed := true, message := "m" },
        { passed := true, message := "s" }⟩).2.2.2.1 rfl,
    (c1_valid_is_conjunction_of_enabled_checks "jane@x.co".toList ⟨true, false, true, false⟩
      ⟨{ passed := true, message := "d" }, { passed := true, message := "m" },
        { passed := true, message := "s" }⟩).2.1 rfl⟩

/-- **C2 counterexample.**  When the syntax check fails
(`"not-an-email"`) with all checks enabled, the returned (and cached)
report's `mx` entry has `passed = false` with an **empty** message — the
claimed non-empty-message invariant fails exactly there. -/
theorem c2_counterexample :
    (runPipeline "not-an-email".toList ⟨true, true, true, true⟩
      ⟨{ passed := true, message := "d" }, { passed := true, message := "m" },
        { passed := true, message := "s" }⟩).results.mx.passed = false ∧
    (runPipeline "not-an-email".toList ⟨true, true, true, true⟩
      ⟨{ passed := true, message := "d" }, { passed := true, message := "m" },
        { passed := true, message := "s" }⟩).results.mx.message = "" := by decide

/-- **C2 (amended).**  Every `CheckResult` actually produced by a check
(`validateSyntax`, `isRoleEmail`, `isDisposableDomain`) carries a
non-empty message when `passed = false`; but in the report returned when
the syntax check fails, the enabled mx / smtp / disposableDomain /
roleBased entries are left at their initial placeholder
`{passed: false, message: ""}` (the syntax entry itself does carry a
non-empty message). -/
theorem c2_failed_checks_message_nonempty_except_placeholders :
    (∀ email : List Char, (validateSyntax email).passed = false →
      (validateSyntax email).message ≠ "") ∧
    (∀ email : List Char, (isRoleEmail email).passed = false →
      (isRoleEmail email).message ≠ "") ∧
    (∀ (email : List Char) (state : Option (List (List Char))) (o : LoadOutcome),
      (isDisposableDomain email state o).1.passed = false →
        (isDisposableDomain email state o).1.message ≠ "") ∧
    (∀ (email : List Char) (e : EnabledChecks) (o : CheckOracles),
      (validateSyntax email).passed = false →
        (runPipeline email e o).results.syntaxResult.message ≠ "" ∧
        (e.mx = true → (runPipeline email e o).results.mx =
          { passed := false, message := "" }) ∧
        (e.smtp = true → (runPipeline email e o).results.smtp =
          { passed := false, message := "" }) ∧
        (e.disposableDomain = true → (runPipeline email e o).results.disposableDomain =
          { passed := false, message := "" }) ∧
        (e.roleBased = true → (runPipeline email e o).results.roleBased =
          { passed := false, message := "" })) := by
  refine ⟨fun email h => (validateSyntax_failure_spec email h).2,
    isRoleEmail_failure_message_nonempty,
    isDisposableDomain_failure_message_nonempty, ?_⟩
  intro email e o h
  rw [runPipeline_syntax_fail email e o h]
  refine ⟨(validateSyntax_failure_spec email h).2, ?_, ?_, ?_, ?_⟩
  all_goals intro he
  all_goals simp [initialResults, placeholderResult, he]

/-- **C2 witness**: the syntax-failure report for `"not-an-email"` has a
non-empty syntax message while its enabled smtp entry is the empty-message
placeholder. -/
theorem c2_witness :
    (runPipeline "not-an-email".toList ⟨true, true, true, true⟩
      ⟨{ passed := true, message := "d" }, { passed := true, message := "m" },
        { passed := true, message := "s" }⟩).results.syntaxResult.message ≠ "" ∧
    (runPipeline "not-an-email".toList ⟨true, true, true, true⟩
      ⟨{ passed := true, message := "d" }, { passed := true, message := "m" },
        { passed := true, message := "s" }⟩).results.smtp =
      { passed := false, message := "" } :=
  ⟨(c2_failed_checks_message_nonempty_except_placeholders.2.2.2 "not-an-email".toList
      ⟨true, true, true, true⟩
      ⟨{ passed := true, message := "d" }, { passed := true, message := "m" },
        { passed := true, message := "s" }⟩ (by decide)).1,
    (c2_failed_checks_message_nonempty_except_placeholders.2.2.2 "not-an-email".toList
      ⟨true, true, true, true⟩
      ⟨{ passed := true, message := "d" }, { passed := true, message := "m" },
        { passed := true, message := "s" }⟩ (by decide)).2.2.1 rfl⟩

/-- **C7 counterexample.**  An address whose domain part has exactly 253
characters is *rejected* (`'a' :: '@' :: 253 chars` has total length 255,
so the total-length check fires first), and an address with a 254-character
domain is rejected with the *too-long* message, not the domain-length
message — refuting the claimed acceptance at domain length 253 and the
claimed domain-length rejection message at 254. -/
theorem c7_counterexample :
    (validateSyntax ('a' :: '@' :: List.replicate 253 'a')).passed = false ∧
    validateSyntax ('a' :: '@' :: List.replicate 254 'a') =
      { passed := false, message := "Email address is too long (max 254 characters)" } ∧
    "Email address is too long (max 254 characters)" ≠
      "Domain must be between 1 and 253 characters" := by decide

/-- **C7 (amended).**  `validateSyntax` accepts a local part of exactly
64 characters and rejects one of 65 with the local-part length message;
accepts a total address length of exactly 254 and rejects any address of
length 255 with the too-long message; but because the total-length check
(≤ 254) runs before the domain-length check and the local part plus `@`
contribute at least 2 characters, every address whose domain part has
253 or more characters is rejected with the too-long message (a domain
of exactly 253 characters is never accepted). -/
theorem c7_length_boundaries :
    validateSyntax (List.replicate 64 'a' ++ "@example.com".toList) =
      { passed := true, message := "Valid email syntax" } ∧
    validateSyntax (List.replicate 65 'a' ++ "@example.com".toList) =
      { passed := false, message := "Local part must be between 1 and 64 characters" } ∧
    (List.replicate 64 'a' ++ '@' :: (List.replicate 63 'a' ++ '.' ::
      List.replicate 63 'a' ++ '.' :: List.replicate 61 'a')).length = 254 ∧
    validateSyntax (List.replicate 64 'a' ++ '@' :: (List.replicate 63 'a' ++ '.' ::
      List.replicate 63 'a' ++ '.' :: List.replicate 61 'a')) =
      { passed := true, message := "Valid email syntax" } ∧
    (∀ email : List Char, email.length = 255 →
      validateSyntax email =
        { passed := false, message := "Email address is too long (max 254 characters)" }) ∧
    (∀ l d : List Char, l ≠ [] → 253 ≤ d.length →
      validateSyntax (l ++ '@' :: d) =
        { passed := false, message := "Email address is too long (max 254 characters)" }) := by
  refine ⟨by decide, by decide, by decide, by decide, ?_, ?_⟩
  · intro email h
    exact validateSyntax_too_long email (by omega)
  · intro l d hl hd
    apply validateSyntax_too_long
    have hpos : 0 < l.length := List.length_pos.mpr hl
    rw [List.length_append, List.length_cons]
    omega

/-- **C7 witness**: the general rejections instantiated at a 255-char
address and at a one-char local part with a 260-char domain. -/
theorem c7_witness :
    validateSyntax (List.replicate 255 'a') =
      { passed := false, message := "Email address is too long (max 254 characters)" } ∧
    validateSyntax (['b'] ++ '@' :: List.replicate 260 'x') =
      { passed := false, message := "Email address is too long (max 254 characters)" } :=
  ⟨c7_length_boundaries.2.2.2.2.1 (List.replicate 255 'a') (by decide),
    c7_length_boundaries.2.2.2.2.2 ['b'] (List.replicate 260 'x') (by decide) (by decide)⟩

/-- **C8 counterexample.**  The input `"user name@example.com"` (space in
the local part) is rejected by the regex branch with the generic message
`"Invalid email format"`, which identifies none of the listed specific
failure reasons — refuting "never a generic invalid message". -/
theorem c8_counterexample :
    validateSyntax "user name@example.com".toList =
      { passed := false, message := "Invalid email format" } := by decide

/-- **C8 (amended).**  Every input rejected by `validateSyntax` receives
one of its nine branch messages — the eight specific failure reasons
listed in the claim plus the generic `"Invalid email format"` produced
by the character-class/label-structure (regex) branch. -/
theorem c8_rejection_messages (email : List Char)
    (h : (validateSyntax email).passed = false) :
    (validateSyntax email).message ∈ syntaxFailureMessages :=
  (validateSyntax_failure_spec email h).1

/-- **C8 witness** at the rejected input `"not-an-email"`. -/
theorem c8_witness :
    (validateSyntax "not-an-email".toList).message ∈ syntaxFailureMessages :=
  c8_rejection_messages "not-an-email".toList (by decide)

/-- **C4.**  For every address that passes the syntax check and whose
domain (lower-cased) is `gmail.com`, with the roleBased,
disposableDomain and mx checks enabled, those three report entries are
the automatic passes with their fixed Gmail rationale messages —
regardless of the local-part shape, since the local part is never
consulted on this path. -/
theorem c4_gmail_auto_pass (email : List Char) (e : EnabledChecks) (o : CheckOracles)
    (hs : (validateSyntax email).passed = true)
    (hg : domainOf email = some gmailDomain)
    (hr : e.roleBased = true) (hd : e.disposableDomain = true) (hm : e.mx = true) :
    (runPipeline email e o).results.roleBased = gmailRoleResult ∧
    (runPipeline email e o).results.disposableDomain = gmailDisposableResult ∧
    (runPipeline email e o).results.mx = gmailMxResult := by
  simp only [runPipeline, hs, hg, hr, hd, hm]
  simp [gmailRoleResult, gmailDisposableResult, gmailMxResult, apply_ite]

/-- **C4 witness** at `admin@gmail.com` — a local part that matches a
role prefix — with all checks enabled. -/
theorem c4_witness :
    (runPipeline "admin@gmail.com".toList ⟨true, true, true, true⟩
      ⟨{ passed := false, message := "d" }, { passed := false, message := "m" },
        { passed := true, message := "s" }⟩).results.roleBased = gmailRoleResult ∧
    (runPipeline "admin@gmail.com".toList ⟨true, true, true, true⟩
      ⟨{ passed := false, message := "d" }, { passed := false, message := "m" },
        { passed := true, message := "s" }⟩).results.disposableDomain =
      gmailDisposableResult ∧
    (runPipeline "admin@gmail.com".toList ⟨true, true, true, true⟩
      ⟨{ passed := false, message := "d" }, { passed := false, message := "m" },
        { passed := true, message := "s" }⟩).results.mx = gmailMxResult :=
  c4_gmail_auto_pass "admin@gmail.com".toList ⟨true, true, true, true⟩
    ⟨{ passed := false, message := "d" }, { passed := false, message := "m" },
      { passed := true, message := "s" }⟩ (by decide) (by decide) rfl rfl rfl

/-- **C6 counterexample.**  Two identical requests 150 seconds apart
(both "within the 5-minute TTL" of each other) can return different
reports: a cache entry inserted at time 0 serves the first call at
t = 200000 ms, expires before the second call at t = 350000 ms, and the
recomputation sees changed oracle results (mx now failing) — so the
second response differs from the first. -/
theorem c6_counterexample :
    ((350000 : Int) - 200000 < cacheTTL) ∧
    (processRequest
        (processRequest
          [(cacheKey "a@b.co".toList ⟨true, true, true, true⟩, 0,
            runPipeline "a@b.co".toList ⟨true, true, true, true⟩
              ⟨{ passed := true, message := "d" }, { passed := true, message := "m" },
                { passed := true, message := "s" }⟩)]
          200000 "a@b.co".toList true {}
          ⟨{ passed := true, message := "d" }, { passed := false, message := "no mx" },
            { passed := true, message := "s" }⟩).2
        350000 "a@b.co".toList true {}
        ⟨{ passed := true, message := "d" }, { passed := false, message := "no mx" },
          { passed := true, message := "s" }⟩).1 ≠
      (processRequest
        [(cacheKey "a@b.co".toList ⟨true, true, true, true⟩, 0,
          runPipeline "a@b.co".toList ⟨true, true, true, true⟩
            ⟨{ passed := true, message := "d" }, { passed := true, message := "m" },
              { passed := true, message := "s" }⟩)]
        200000 "a@b.co".toList true {}
        ⟨{ passed := true, message := "d" }, { passed := false, message := "no mx" },
          { passed := true, message := "s" }⟩).1 := by decide

/-- **C6 (amended).**  (a) If the first of two identical `(email, tests)`
requests is not served from a pre-existing cache entry (its lookup
misses, or finds only an entry already older than the TTL), it caches
the report it returns, and any second identical request within the TTL
*of the first call* returns exactly that report, whatever its oracles
would now say.  (b) Two requests with the same email but different
effective `tests` selections produce different cache keys and so never
share a cache entry.  (As stated, the claim fails when the first call is
itself served from an older cache entry — see the counterexample.) -/
theorem c6_cache_idempotence_and_key_sensitivity :
    (∀ (cache : ResponseCache) (t1 t2 : Int) (email : List Char) (legacy : Bool)
        (tests : TestsSelection) (o1 o2 : CheckOracles),
      (∀ (t : Int) (v : EmailValidationResponse),
        cacheGet cache (cacheKey email (enabledChecks legacy tests)) = some (t, v) →
          cacheTTL ≤ t1 - t) →
      t2 - t1 < cacheTTL →
      (processRequest (processRequest cache t1 email legacy tests o1).2 t2 email legacy tests
        o2).1 = (processRequest cache t1 email legacy tests o1).1) ∧
    (∀ (email : List Char) (f1 f2 : EnabledChecks), f1 ≠ f2 →
      cacheKey email f1 ≠ cacheKey email f2) := by
  constructor
  · intro cache t1 t2 email legacy tests o1 o2 hmiss httl
    unfold processRequest
    cases hc : cacheGet cache (cacheKey email (enabledChecks legacy tests)) with
    | none =>
      simp only [hc]
      rw [cacheGet_set]
      simp only [if_pos httl]
    | some tv =>
      obtain ⟨t, v⟩ := tv
      have hexp : ¬ (t1 - t < cacheTTL) := not_lt.mpr (hmiss t v hc)
      simp only [hc, if_neg hexp]
      rw [cacheGet_set]
      simp only [if_pos httl]
  · intro email f1 f2 hne heq
    apply hne
    unfold cacheKey at heq
    have hsfx : cacheKeySuffix f1 = cacheKeySuffix f2 := List.append_cancel_left heq
    obtain ⟨a, b, c, d⟩ := f1
    obtain ⟨a', b', c', d'⟩ := f2
    revert hsfx
    cases a <;> cases b <;> cases c <;> cases d <;> cases a' <;> cases b' <;> cases c' <;>
      cases d' <;> decide

/-- **C6 witness**: a first call on an empty cache followed one
millisecond later by an identical call returns the identical report; and
the all-enabled versus smtp-disabled selections give different keys. -/
theorem c6_witness :
    (processRequest
        (processRequest ([] : ResponseCache) 0 "a@b.co".toList true {}
          ⟨{ passed := true, message := "d" }, { passed := true, message := "m" },
            { passed := true, message := "s" }⟩).2
        1 "a@b.co".toList true {}
        ⟨{ passed := true, message := "d" }, { passed := false, message := "no mx" },
          { passed := true, message := "s" }⟩).1 =
      (processRequest ([] : ResponseCache) 0 "a@b.co".toList true {}
        ⟨{ passed := true, message := "d" }, { passed := true, message := "m" },
          { passed := true, message := "s" }⟩).1 ∧
    cacheKey "a@b.co".toList ⟨true, true, true, true⟩ ≠
      cacheKey "a@b.co".toList ⟨false, true, true, true⟩ :=
  ⟨c6_cache_idempotence_and_key_sensitivity.1 [] 0 1 "a@b.co".toList true {}
      ⟨{ passed := true, message := "d" }, { passed := true, message := "m" },
        { passed := true, message := "s" }⟩
      ⟨{ passed := true, message := "d" }, { passed := false, message := "no mx" },
        { passed := true, message := "s" }⟩
      (fun t v h => by simp [cacheGet] at h) (by decide),
    c6_cache_idempotence_and_key_sensitivity.2 "a@b.co".toList ⟨true, true, true, true⟩
      ⟨false, true, true, true⟩ (by decide)⟩

/-- **C3 counterexample.**  With all five raw sub-scores equal to `0`
(no known-bad signal anywhere) and the analyzers' fixed `maxScore`
constants, the combined confidence is `55`, which is below the
pass threshold `60`, so the address is reported `passed = false` —
refuting the claimed `≥ 60` bound. -/
theorem c3_counterexample :
    calculateConfidenceScore ⟨0, 50⟩ ⟨0, 40⟩ ⟨0, 45⟩ ⟨0, 25⟩ ⟨0, 30⟩ = 55 ∧
      smartValidationPassed
        (calculateConfidenceScore ⟨0, 50⟩ ⟨0, 40⟩ ⟨0, 45⟩ ⟨0, 25⟩ ⟨0, 30⟩) = false := by
  have h : calculateConfidenceScore ⟨0, 50⟩ ⟨0, 40⟩ ⟨0, 45⟩ ⟨0, 25⟩ ⟨0, 30⟩ = 55 := by
    norm_num [calculateConfidenceScore, normalizedScore, jsRound]
  refine ⟨h, ?_⟩
  rw [h]
  decide

/-- **C3 (amended).**  For the heuristic confidence scorer with the
analyzers' fixed `maxScore` constants (domain 50, local part 40, MX 45,
pattern 25, reputation 30), every address with zero known-bad signals —
all five raw sub-scores non-negative — receives a combined confidence of
at least `55` (not `60`; `55` is attained at all-zero sub-scores, so
`passed = true` is not guaranteed). -/
theorem c3_zero_bad_signals_confidence_at_least_55
    (d l m p r : ℚ) (hd : 0 ≤ d) (hl : 0 ≤ l) (hm : 0 ≤ m) (hp : 0 ≤ p) (hr : 0 ≤ r) :
    55 ≤ calculateConfidenceScore ⟨d, 50⟩ ⟨l, 40⟩ ⟨m, 45⟩ ⟨p, 25⟩ ⟨r, 30⟩ := by
  unfold calculateConfidenceScore
  have hnd := normalizedScore_mono 50 (by norm_num) hd
  have hnl := normalizedScore_mono 40 (by norm_num) hl
  have hnm := normalizedScore_mono 45 (by norm_num) hm
  have hnp := normalizedScore_mono 25 (by norm_num) hp
  have hnr := normalizedScore_mono 30 (by norm_num) hr
  have hd0 : normalizedScore ⟨0, 50⟩ = 50 := by norm_num [normalizedScore]
  have hl0 : normalizedScore ⟨0, 40⟩ = 500 / 9 := by norm_num [normalizedScore]
  have hm0 : normalizedScore ⟨0, 45⟩ = 1000 / 19 := by norm_num [normalizedScore]
  have hp0 : normalizedScore ⟨0, 25⟩ = 200 / 3 := by norm_num [normalizedScore]
  have hr0 : normalizedScore ⟨0, 30⟩ = 125 / 2 := by norm_num [normalizedScore]
  rw [hd0] at hnd; rw [hl0] at hnl; rw [hm0] at hnm; rw [hp0] at hnp; rw [hr0] at hnr
  simp only
  rw [if_pos (by norm_num)]
  set w := normalizedScore ⟨d, 50⟩ * (25 / 100) + normalizedScore ⟨l, 40⟩ * (30 / 100) +
    normalizedScore ⟨m, 45⟩ * (30 / 100) + normalizedScore ⟨p, 25⟩ * (10 / 100) +
    normalizedScore ⟨r, 30⟩ * (5 / 100) with hw
  have hwlb : 24965 / 456 ≤ w := by
    rw [hw]
    nlinarith [hnd, hnl, hnm, hnp, hnr]
  have h2 : (24965 / 456 : ℚ) ≤
      max 0 (min 100 (w / (25 / 100 + 30 / 100 + 30 / 100 + 10 / 100 + 5 / 100))) := by
    rw [show (25 / 100 + 30 / 100 + 30 / 100 + 10 / 100 + 5 / 100 : ℚ) = 1 by norm_num,
      div_one]
    exact (le_min (by linarith) hwlb).trans (le_max_right _ _)
  unfold jsRound
  rw [Int.le_floor]
  push_cast
  linarith

/-- **C3 witness** for the amended bound, at all-zero sub-scores. -/
theorem c3_witness :
    55 ≤ calculateConfidenceScore ⟨0, 50⟩ ⟨0, 40⟩ ⟨0, 45⟩ ⟨0, 25⟩ ⟨0, 30⟩ :=
  c3_zero_bad_signals_confidence_at_least_55 0 0 0 0 0 (le_refl 0) (le_refl 0) (le_refl 0)
    (le_refl 0) (le_refl 0)

/-- **C5** (code bug).  Run the data-event machine on the session that
SMTP turn-taking produces — one server reply per event: the greeting,
the HELO acknowledgment, the MAIL FROM acknowledgment, and finally a
`550` rejection of RCPT TO.  Because each event re-walks *all*
accumulated lines, on the MAIL FROM-acknowledgment event the stale HELO
`250` line first advances `step` from 2 to 3 (sending RCPT TO), and the
`step === 3` branch then classifies the MAIL FROM `250` line itself:
the prober resolves `passed = true, confidence 95` before any RCPT
reply exists (first conjunct, after only three events), the later RCPT
`550` never changes the outcome (second conjunct), and that outcome
differs from the `passed = false, confidence 90` verdict the claim —
and the source's own `step === 3` comment — require for a 550 RCPT
reply (third conjunct). -/
theorem c5_mail_from_ack_classified_as_rcpt :
    (runSmtpSession ["220 mx.example.com ESMTP\r\n".toList,
        "250 mx.example.com\r\n".toList, "250 OK\r\n".toList]).resolved =
      some { passed := true, message := "Mailbox exists and can receive emails",
             confidence := 95, method := "smtp" } ∧
    (runSmtpSession ["220 mx.example.com ESMTP\r\n".toList,
        "250 mx.example.com\r\n".toList, "250 OK\r\n".toList,
        "550 No such user\r\n".toList]).resolved =
      some { passed := true, message := "Mailbox exists and can receive emails",
             confidence := 95, method := "smtp" } ∧
    ({ passed := true, message := "Mailbox exists and can receive emails",
       confidence := 95, method := "smtp" } : InboxValidationResult) ≠
      { passed := false, message := "Mailbox does not exist",
        confidence := 90, method := "smtp" } := by decide

/-- **C9.**  If the disposable-domain list fails to load (file
unreadable/unparseable, or parseable but not an array), the loaded set
is empty, so `isDisposableDomain` treats every email that has a domain
as non-disposable and returns `passed = true`; the model is a total
function, mirroring the catch-all handlers that keep the source from
throwing. -/
theorem c9_fails_open (email : List Char) (o : LoadOutcome) (d : List Char)
    (ho : o = LoadOutcome.readError ∨ o = LoadOutcome.notArray)
    (hd : (splitOnChar '@' email)[1]? = some d) (hne : d ≠ []) :
    (isDisposableDomain email none o).1 =
      { passed := true, message := "Domain is not disposable" } := by
  have hset : domainsOfOutcome o = [] := by
    rcases ho with h | h <;> simp [h, domainsOfOutcome]
  unfold isDisposableDomain
  rw [hd]
  cases d with
  | nil => exact absurd rfl hne
  | cons c cs =>
    simp [loadDisposableDomains, hset]

/-- **C9 witness**: a disposable domain (`mailinator.com`) passes when
the list failed to load. -/
theorem c9_witness :
    (isDisposableDomain "x@mailinator.com".toList none LoadOutcome.readError).1 =
      { passed := true, message := "Domain is not disposable" } :=
  c9_fails_open "x@mailinator.com".toList LoadOutcome.readError "mailinator.com".toList
    (Or.inl rfl) (by decide) (by decide)

/-- **C10.**  The first load attempt memoises its result (the empty set
on any failure) in the module-level variable; once the variable is set,
every later call returns it unchanged and the outcome of any further
file read is ignored, so the list file is never re-consulted. -/
theorem c10_domain_set_memoised :
    (∀ (s : List (List Char)) (o : LoadOutcome),
      loadDisposableDomains (some s) o = (s, some s)) ∧
    (∀ o : LoadOutcome,
      loadDisposableDomains none o = (domainsOfOutcome o, some (domainsOfOutcome o))) ∧
    (∀ (s : List (List Char)) (o₁ o₂ : LoadOutcome) (email : List Char),
      isDisposableDomain email (some s) o₁ = isDisposableDomain email (some s) o₂) ∧
    domainsOfOutcome LoadOutcome.readError = [] ∧
    domainsOfOutcome LoadOutcome.notArray = [] := by
  refine ⟨fun s o => rfl, fun o => rfl, ?_, rfl, rfl⟩
  intro s o₁ o₂ email
  unfold isDisposableDomain
  rfl

end EmailValidator
